import Mathlib

/-
Verification of the ENS manager core (ens_manager/ens_operations.py).

Strings are modelled as lists of Unicode code points (PyStr := List Nat),
so that Python string primitives (lower, replace, split, endswith, in)
become executable list functions.  All external collaborators (web3/ENS
reads, contract calls, transaction build/sign/send/wait) are gathered in
an oracle structure Env; a call that can raise is modelled as an Option
result, none standing for a raised exception that the surrounding
try/except turns into the documented fallback.  Every write operation
additionally returns the list of transaction effects it performed, so
that statements of the form "returns early and issues no transaction"
are expressible.

One source fact dominates the writer API: ENSManager.__init__ never
assigns self.account (nor self.private_key) — line 650 only binds a
local — and no other code in the repository assigns them, so the
"if not self.account:" guard opening every facade writer raises
AttributeError at the attribute access itself, outside each method's
try/except, in every state.  The facade writers are embedded
accordingly as unconditional raises; the dead code of register_name
after its guard is kept as a separate, clearly named definition to
evaluate what that method was written to do.
-/

/-! ## Python string primitives -/

abbrev PyStr := List Nat

def pystr (s : String) : PyStr := s.data.map Char.toNat

/-- Python str.lower for one ASCII code point. -/
def lowerChar (c : Nat) : Nat := if 65 ≤ c ∧ c ≤ 90 then c + 32 else c

/-- Python str.lower. -/
def toLower (s : PyStr) : PyStr := s.map lowerChar

/-- The canonical suffix ".eth" as code points (46, 101, 116, 104). -/
def ethSuffix : PyStr := pystr ".eth"

/-- Python name.replace(".eth", ""): removes every non-overlapping
occurrence of ".eth", scanning left to right.  The first arm matches the
code points of ".eth". -/
def removeEthAll : PyStr → PyStr
  | 46 :: 101 :: 116 :: 104 :: rest => removeEthAll rest
  | c :: rest => c :: removeEthAll rest
  | [] => []

/-- Python substring test (sub in s) for a fixed pattern sub. -/
def containsSub (sub : PyStr) : PyStr → Bool
  | [] => sub.isEmpty
  | c :: rest => sub.isPrefixOf (c :: rest) || containsSub sub rest

/-- Python s.split(".") — splits on code point 46, keeping empty parts. -/
def splitDot : PyStr → List PyStr
  | [] => [[]]
  | 46 :: rest => [] :: splitDot rest
  | c :: rest =>
    match splitDot rest with
    | h :: t => (c :: h) :: t
    | [] => [[c]]

/-- Python s.startswith(single character c). -/
def startsWithNat (c : Nat) (s : PyStr) : Bool := s.head? == some c

/-- Python s.endswith(single character c). -/
def endsWithNat (c : Nat) (s : PyStr) : Bool := s.getLast? == some c

/-- The character set "abcdefghijklmnopqrstuvwxyz0123456789-." used by
both validators, as a predicate on code points. -/
def allowedChars (c : Nat) : Bool :=
  (97 ≤ c && c ≤ 122) || (48 ≤ c && c ≤ 57) || (c == 45) || (c == 46)

/-- Python set(s).issubset(allowed). -/
def allAllowed (s : PyStr) : Bool := s.all allowedChars

def dots : PyStr := pystr ".."

def hyphens : PyStr := pystr "--"

def zeroAddress : PyStr := pystr "0x0000000000000000000000000000000000000000"

/-- A concrete hex-format address check (0x followed by 40 hex digits),
used to instantiate the external is_address oracle in counterexamples
and witnesses. -/
def isHexDigit (c : Nat) : Bool :=
  (48 ≤ c && c ≤ 57) || (97 ≤ c && c ≤ 102) || (65 ≤ c && c ≤ 70)

def isHexAddress (s : PyStr) : Bool :=
  (s.length == 42) && (pystr "0x").isPrefixOf s && (s.drop 2).all isHexDigit

/-! ## Name validators (pure functions of the source) -/

/-- The issues collected by ENSManager.validate_and_normalize_name; each
constructor stands for one of the message strings appended by the
source. -/
inductive Issue
  | tooShort
  | invalidChars
  | consecutiveHyphens
  | edgeHyphen
  | consecutiveDots
  | labelTooLong (label : PyStr)
deriving DecidableEq

/-- The TLD whitelist of ENSManager.validate_name. -/
def tlds : List PyStr := [pystr "eth", pystr "xyz", pystr "test"]

/-- ENSManager.validate_name (ens_operations.py lines 873-905). -/
def validate_name (name : PyStr) : Bool :=
  if name.isEmpty || name.length < 3 then false
  else if !(name.contains 46) then false
  else if !(tlds.contains ((splitDot name).getLastD [])) then false
  else if !(allAllowed (toLower name)) then false
  else if containsSub dots name || containsSub hyphens name then false
  else if startsWithNat 46 name || endsWithNat 46 name
       || startsWithNat 45 name || endsWithNat 45 name then false
  else true

/-- The normalized string produced by validate_and_normalize_name:
lower-case the input, then append ".eth" unless it is already the
suffix (ens_operations.py lines 1494-1501). -/
def vannNormalized (s : PyStr) : PyStr :=
  if ethSuffix.isSuffixOf (toLower s) then toLower s else toLower s ++ ethSuffix

/-- The issue list built by validate_and_normalize_name, in source
order: the length check runs on the lower-cased input before the suffix
is appended; every later check runs on the suffixed string
(ens_operations.py lines 1493-1523). -/
def vannIssues (s : PyStr) : List Issue :=
  (if (toLower s).length < 3 then [Issue.tooShort] else []) ++
  (if allAllowed (vannNormalized s) then [] else [Issue.invalidChars]) ++
  (if containsSub hyphens (vannNormalized s) then [Issue.consecutiveHyphens] else []) ++
  (if startsWithNat 45 (vannNormalized s) || endsWithNat 45 (vannNormalized s) then
    [Issue.edgeHyphen] else []) ++
  (if containsSub dots (vannNormalized s) then [Issue.consecutiveDots] else []) ++
  ((splitDot (vannNormalized s)).filter (fun l => 63 < l.length)).map Issue.labelTooLong

/-- ENSManager.validate_and_normalize_name: returns
(ok, normalized, issues) with ok true exactly when no issue was
collected. -/
def validate_and_normalize_name (s : PyStr) : Bool × PyStr × List Issue :=
  ((vannIssues s).isEmpty, vannNormalized s, vannIssues s)

/-- Written from the claim wording only (not from the source): strip one
trailing ".eth" suffix if present.  Used to compare the suffix-stripped
input the spec speaks about with the label the code actually computes. -/
def specStripEthSuffix (s : PyStr) : PyStr :=
  if ethSuffix.isSuffixOf s then s.take (s.length - 4) else s

/-! ## Transactions, effects and the external-world oracle -/

/-- The contract calls the writer operations can issue. -/
inductive TxKind
  | registerTx (label : PyStr) (duration : Nat)
  | setOwnerTx (name toAddr : PyStr)
  | setAddrTx (name addr : PyStr)
  | setTextTx (name key value : PyStr)
  | setContenthashTx (name hash : PyStr)
  | setSubnodeOwnerTx (domain sub ownerAddr : PyStr)
deriving DecidableEq

/-- Observable side effects of a write operation. -/
inductive Effect
  | buildTx (k : TxKind)
  | signTx (k : TxKind)
  | sendRawTx (k : TxKind)
  | waitReceipt (k : TxKind)
  | transactCall (k : TxKind)
deriving DecidableEq

/-- Result of a Python call that may raise: raised msg models an
uncaught exception crossing the operation boundary. -/
inductive PyResult (α : Type)
  | ok (val : α)
  | raised (msg : PyStr)
deriving DecidableEq

/-- Oracle for every external collaborator.  A field returning Option
yields none when the underlying call raises (or, where noted, returns
Python None). -/
structure Env where
  isAddress : PyStr → Bool
  toChecksum : PyStr → PyStr
  resolverOk : PyStr → Bool
  textRecord : PyStr → PyStr → Option PyStr
  mainnetAddr : PyStr → Option PyStr
  w3Addr : PyStr → Option PyStr
  w3Owner : PyStr → Option PyStr
  w3ResolverOk : PyStr → Bool
  available : PyStr → Option Bool
  rentPrice : PyStr → Nat → Option Nat
  rpcConnected : PyStr → Bool
  buildOk : TxKind → Bool
  signOk : TxKind → Bool
  sendResult : TxKind → Option PyStr
  receiptStatus : TxKind → Option Nat
  transactResult : TxKind → Option PyStr
  excText : PyStr

/-- The facade state as __init__ (lines 636-672) actually leaves it:
when a private key is supplied, line 650 binds a LOCAL variable account
and line 651 stores only its address into w3.eth.default_account.  No
self.account (and no self.private_key) attribute is ever created — not
in __init__, not in any method, not by any caller in the repository.
Consequently the attribute access in every "if not self.account:" guard
raises AttributeError, in every state. -/
structure ENSManager where
  defaultAccount : Option PyStr

/-- The exception text of the AttributeError raised by the account
guards: the Python message is: 'ENSManager' object has no attribute
'account' (code point 39 is the apostrophe). -/
def attrErrAccount : PyStr :=
  [39] ++ pystr "ENSManager" ++ [39] ++ pystr " object has no attribute "
    ++ [39] ++ pystr "account" ++ [39]

/-- The common build / sign / send_raw_transaction / wait_for_receipt
pipeline shared by the writer operations, with the effects it performed.
A raise at any step is caught by the except clause of the caller, which
returns false with failPrefix followed by the exception text; receipt
status 1 yields (true, okMsg), any other status yields
(false, "Transaction failed"). -/
def runTx (env : Env) (k : TxKind) (okMsg failPrefix : PyStr) :
    (Bool × PyStr) × List Effect :=
  if env.buildOk k = false then
    ((false, failPrefix ++ env.excText), [Effect.buildTx k])
  else if env.signOk k = false then
    ((false, failPrefix ++ env.excText), [Effect.buildTx k, Effect.signTx k])
  else
    match env.sendResult k with
    | none =>
      ((false, failPrefix ++ env.excText),
        [Effect.buildTx k, Effect.signTx k, Effect.sendRawTx k])
    | some _ =>
      match env.receiptStatus k with
      | none =>
        ((false, failPrefix ++ env.excText),
          [Effect.buildTx k, Effect.signTx k, Effect.sendRawTx k, Effect.waitReceipt k])
      | some st =>
        ((if st = 1 then (true, okMsg) else (false, pystr "Transaction failed")),
          [Effect.buildTx k, Effect.signTx k, Effect.sendRawTx k, Effect.waitReceipt k])

/-! ## Network registry and cross-network resolution -/

/-- NETWORK_CONFIGS keys, in insertion order. -/
def networkConfigKeys : List PyStr :=
  [pystr "mainnet", pystr "optimism", pystr "arbitrum", pystr "polygon", pystr "base"]

/-- NetworkManager.get_available_networks: the networks whose RPC
variable was set and whose connection probe succeeded at startup. -/
def get_available_networks (env : Env) : List PyStr :=
  networkConfigKeys.filter env.rpcConnected

/-- The text-record key "network.{network}.address". -/
def networkKey (network : PyStr) : PyStr :=
  pystr "network." ++ network ++ pystr ".address"

/-- Python truthiness of an optional string (None and "" are falsy). -/
def truthy : Option PyStr → Bool
  | some s => !s.isEmpty
  | none => false

/-- CrossNetworkResolver.get_network_specific_address (lines 198-223):
try the network-specific text record on the canonical chain; a hit that
passes is_address is returned checksummed; otherwise mainnet falls back
to the default ENS lookup (returned unvalidated), and any other network
yields None. -/
def get_network_specific_address (env : Env) (name network : PyStr) : Option PyStr :=
  let viaText : Option PyStr :=
    if env.resolverOk name then
      match env.textRecord name (networkKey network) with
      | some t => if !t.isEmpty && env.isAddress t then some (env.toChecksum t) else none
      | none => none
    else none
  match viaText with
  | some a => some a
  | none => if network = pystr "mainnet" then env.mainnetAddr name else none

/-- CrossNetworkResolver.set_network_address (lines 225-260): validates
the address and the resolver, then builds, signs, submits and awaits the
setText transaction.  It performs no ownership check and no signing-
account guard. -/
def set_network_address (env : Env) (name network address : PyStr) :
    (Bool × PyStr) × List Effect :=
  if env.isAddress address = false then ((false, pystr "Invalid address"), [])
  else if env.resolverOk name = false then ((false, pystr "No resolver set"), [])
  else
    runTx env (TxKind.setTextTx name (networkKey network) address)
      (pystr "Successfully set " ++ network ++ pystr " address for " ++ name)
      (pystr "Error setting address: ")

/-- CrossNetworkResolver.get_all_network_addresses (lines 262-268):
iterates over NETWORK_CONFIGS.keys() — the full static table, not the
available set — building one entry per configured network. -/
def get_all_network_addresses (env : Env) (name : PyStr) :
    List (PyStr × Option PyStr) :=
  networkConfigKeys.map (fun network => (network, get_network_specific_address env name network))

/-! ## Facade reads -/

/-- ENSManager.get_owner: zero owner and raised lookups both become
None. -/
def get_owner (env : Env) (name : PyStr) : Option PyStr :=
  match env.w3Owner name with
  | some o => if o = zeroAddress then none else some o
  | none => none

/-- ENSManager.resolve_name (lines 674-698): network-specific resolution
first; if it is falsy and the network is mainnet, the default web3 ENS
lookup, returned when non-empty and non-zero; otherwise None. -/
def resolve_name (env : Env) (name network : PyStr) : Option PyStr :=
  let a := get_network_specific_address env name network
  if truthy a then a
  else if network = pystr "mainnet" then
    match env.w3Addr name with
    | some s => if !s.isEmpty && s ≠ zeroAddress then some s else none
    | none => none
  else none

/-- ENSManager.check_name_available (lines 1007-1015): lower-cases and
removes every ".eth" occurrence, then queries the controller; a raised
query reports False. -/
def check_name_available (env : Env) (name : PyStr) : Bool :=
  (env.available (removeEthAll (toLower name))).getD false

/-! ## Facade writes -/

/-
Every facade writer begins with the guard "if not self.account:".  Since
no self.account attribute exists on any instance (see ENSManager above),
that attribute access itself raises AttributeError before the guard can
branch, and the guard sits outside the try/except of each method, so the
exception reaches the caller.  The entire method body below each guard —
including the (false, "No account configured") returns, the ValueError
raises of set_text_record / set_content_hash, the ownership comparisons
and the transaction pipelines — is dead code in the shipped program
(the signing step would additionally read the never-assigned
self.private_key, e.g. line 1065).  The faithful embedding of each
writer is therefore the unconditional raise with no effects.
-/

/-- ENSManager.register_name (lines 1030-1077): raises AttributeError at
the line 1032 guard, in every state; lines 1033-1077 are unreachable. -/
def register_name (_env : Env) (_self : ENSManager) (_name : PyStr)
    (_durationYears : Nat) : PyResult (Bool × PyStr) × List Effect :=
  (PyResult.raised attrErrAccount, [])

/-- The dead code of register_name after the line 1032 guard (lines
1035-1077), embedded under the counterfactual that self.account held an
account whose address is acct — the state __init__ was evidently meant
to establish.  Unreachable in the shipped program; used to evaluate what
the method was written to do. -/
def register_name_afterGuard (env : Env) (_acct name : PyStr)
    (durationYears : Nat) : (Bool × PyStr) × List Effect :=
  let label := removeEthAll (toLower name)
  if check_name_available env label then
    let duration := durationYears * 31536000
    match env.rentPrice label duration with
    | none => ((false, pystr "Error registering name: " ++ env.excText), [])
    | some _cost =>
      runTx env (TxKind.registerTx label duration)
        (pystr "Successfully registered " ++ label ++ pystr ".eth")
        (pystr "Error registering name: ")
  else ((false, pystr "Name is not available"), [])

/-- ENSManager.transfer_name (lines 1079-1123): raises AttributeError at
the line 1081 guard, in every state; the target-address validation and
the ownership comparison of lines 1085-1094 are unreachable. -/
def transfer_name (_env : Env) (_self : ENSManager) (_name _toAddress : PyStr) :
    PyResult (Bool × PyStr) × List Effect :=
  (PyResult.raised attrErrAccount, [])

/-- ENSManager.set_address (lines 1125-1174, the effective definition of
the facade): raises AttributeError at the line 1127 guard, in every
state; the ownership and resolver branches are unreachable. -/
def set_address (_env : Env) (_self : ENSManager) (_name _address : PyStr) :
    PyResult (Bool × PyStr) × List Effect :=
  (PyResult.raised attrErrAccount, [])

/-- ENSManager.set_text_record (lines 822-840): raises AttributeError at
the line 824 guard attribute access, in every state; the ValueError of
line 825 and the transact call are unreachable. -/
def set_text_record (_env : Env) (_self : ENSManager) (_name _key _value : PyStr) :
    PyResult Bool × List Effect :=
  (PyResult.raised attrErrAccount, [])

/-- ENSManager.set_content_hash (lines 842-859): raises AttributeError
at the line 844 guard attribute access, in every state. -/
def set_content_hash (_env : Env) (_self : ENSManager) (_name _contentHash : PyStr) :
    PyResult Bool × List Effect :=
  (PyResult.raised attrErrAccount, [])

/-- ENSManager.create_subdomain (lines 1176-1226): raises AttributeError
at the line 1178 guard, in every state; the parent-ownership branch is
unreachable. -/
def create_subdomain (_env : Env) (_self : ENSManager) (_domain _sub : PyStr)
    (_ownerAddress : Option PyStr) : PyResult (Bool × PyStr) × List Effect :=
  (PyResult.raised attrErrAccount, [])

/-! ## Model sanity checks -/

example : toLower (pystr "Test.ETH") = pystr "test.eth" := by decide

example : removeEthAll (pystr "a.eth.eth") = pystr "a" := by decide

example : removeEthAll (pystr "x.ethy.eth") = pystr "xy" := by decide

example : validate_name (pystr "test.eth") = true := by decide

example : validate_name (pystr "invalid..name.eth") = false := by decide

example : validate_name (pystr "invalid@name.eth") = false := by decide

example : validate_name (pystr "-invalid.eth") = false := by decide

example : validate_and_normalize_name (pystr "Test.ETH") =
    (true, pystr "test.eth", []) := by decide

/-! ## Helper lemmas on the string primitives -/

theorem isPrefixOf_self_append (l t : PyStr) : l.isPrefixOf (l ++ t) = true := by
  induction l with
  | nil => simp [List.isPrefixOf]
  | cons a as ih => simp [List.isPrefixOf, ih]

theorem isSuffixOf_append_self (t l : PyStr) : l.isSuffixOf (t ++ l) = true := by
  simp only [List.isSuffixOf, List.reverse_append]
  exact isPrefixOf_self_append _ _

theorem isPrefixOf_length_le (l t : PyStr) (h : l.isPrefixOf t = true) :
    l.length ≤ t.length := by
  induction l generalizing t with
  | nil => simp
  | cons a as ih =>
    cases t with
    | nil => simp [List.isPrefixOf] at h
    | cons b bs =>
      simp only [List.isPrefixOf, Bool.and_eq_true] at h
      simpa using ih bs h.2

theorem isSuffixOf_length_le (l t : PyStr) (h : l.isSuffixOf t = true) :
    l.length ≤ t.length := by
  have := isPrefixOf_length_le l.reverse t.reverse (by simpa [List.isSuffixOf] using h)
  simpa using this

theorem isPrefixOf_append_of_isPrefixOf (sub l t : PyStr)
    (h : sub.isPrefixOf l = true) : sub.isPrefixOf (l ++ t) = true := by
  induction sub generalizing l with
  | nil => simp [List.isPrefixOf]
  | cons a as ih =>
    cases l with
    | nil => simp [List.isPrefixOf] at h
    | cons b bs =>
      simp only [List.isPrefixOf, Bool.and_eq_true] at h
      simp only [List.cons_append, List.isPrefixOf, Bool.and_eq_true]
      exact ⟨h.1, ih bs h.2⟩

theorem isPrefixOf_map (f : Nat → Nat) (sub l : PyStr)
    (h : sub.isPrefixOf l = true) : (sub.map f).isPrefixOf (l.map f) = true := by
  induction sub generalizing l with
  | nil => simp [List.isPrefixOf]
  | cons a as ih =>
    cases l with
    | nil => simp [List.isPrefixOf] at h
    | cons b bs =>
      simp only [List.isPrefixOf, Bool.and_eq_true, beq_iff_eq] at h
      simp only [List.map_cons, List.isPrefixOf, Bool.and_eq_true, beq_iff_eq]
      exact ⟨by rw [h.1], ih bs h.2⟩

theorem containsSub_nil_sub (t : PyStr) : containsSub [] t = true := by
  cases t <;> simp [containsSub, List.isPrefixOf]

theorem containsSub_map (f : Nat → Nat) (sub l : PyStr)
    (h : containsSub sub l = true) : containsSub (sub.map f) (l.map f) = true := by
  induction l with
  | nil =>
    cases sub with
    | nil => exact containsSub_nil_sub []
    | cons a as => simp [containsSub] at h
  | cons c rest ih =>
    simp only [containsSub, Bool.or_eq_true] at h
    simp only [List.map_cons, containsSub, Bool.or_eq_true]
    rcases h with h | h
    · exact Or.inl (isPrefixOf_map f sub (c :: rest) h)
    · exact Or.inr (ih h)

theorem containsSub_append_left (sub l t : PyStr)
    (h : containsSub sub l = true) : containsSub sub (l ++ t) = true := by
  induction l with
  | nil =>
    cases sub with
    | nil => exact containsSub_nil_sub t
    | cons a as => simp [containsSub] at h
  | cons c rest ih =>
    simp only [containsSub, Bool.or_eq_true] at h
    simp only [List.cons_append, containsSub, Bool.or_eq_true]
    rcases h with h | h
    · exact Or.inl (isPrefixOf_append_of_isPrefixOf sub (c :: rest) t h)
    · exact Or.inr (ih h)

theorem lowerChar_idem (c : Nat) : lowerChar (lowerChar c) = lowerChar c := by
  unfold lowerChar
  split_ifs <;> omega

theorem lowerChar_fixed_of_allowed (c : Nat) (h : allowedChars c = true) :
    lowerChar c = c := by
  simp only [allowedChars, Bool.or_eq_true, Bool.and_eq_true, decide_eq_true_eq,
    beq_iff_eq] at h
  unfold lowerChar
  split_ifs with h1
  · omega
  · rfl

theorem toLower_fixed_of_allAllowed (l : PyStr) (h : allAllowed l = true) :
    toLower l = l := by
  induction l with
  | nil => rfl
  | cons c rest ih =>
    simp only [allAllowed, List.all_cons, Bool.and_eq_true] at h
    have h2 : toLower rest = rest := ih h.2
    simp only [toLower, List.map_cons] at h2 ⊢
    rw [lowerChar_fixed_of_allowed c h.1, h2]

theorem toLower_length (s : PyStr) : (toLower s).length = s.length := by
  simp [toLower]

theorem vannNormalized_endsWithEth (s : PyStr) :
    ethSuffix.isSuffixOf (vannNormalized s) = true := by
  unfold vannNormalized
  split
  · assumption
  · exact isSuffixOf_append_self _ _

theorem isEmpty_false_of_mem {α : Type} {x : α} {l : List α} (h : x ∈ l) :
    l.isEmpty = false := by
  cases l with
  | nil => cases h
  | cons a t => rfl

theorem containsSub_vannNormalized (sub s : PyStr) (hf : sub.map lowerChar = sub)
    (h : containsSub sub s = true) : containsSub sub (vannNormalized s) = true := by
  have h1 : containsSub sub (toLower s) = true := by
    have := containsSub_map lowerChar sub s h
    rwa [hf] at this
  unfold vannNormalized
  split
  · exact h1
  · exact containsSub_append_left _ _ _ h1

theorem startsWithNat45_vannNormalized (s : PyStr) (h : startsWithNat 45 s = true) :
    startsWithNat 45 (vannNormalized s) = true := by
  cases s with
  | nil => simp [startsWithNat] at h
  | cons c rest =>
    have hc : c = 45 := by simpa [startsWithNat] using h
    subst hc
    have hl : toLower (45 :: rest) = 45 :: toLower rest := by
      simp [toLower, lowerChar]
    unfold vannNormalized
    split <;> simp [startsWithNat, hl]

/-! ## Concrete oracle instances used by counterexamples and witnesses -/

def baseEnv : Env where
  isAddress := isHexAddress
  toChecksum := id
  resolverOk := fun _ => false
  textRecord := fun _ _ => none
  mainnetAddr := fun _ => none
  w3Addr := fun _ => none
  w3Owner := fun _ => none
  w3ResolverOk := fun _ => false
  available := fun _ => none
  rentPrice := fun _ _ => none
  rpcConnected := fun _ => false
  buildOk := fun _ => true
  signOk := fun _ => true
  sendResult := fun _ => some (pystr "0xhash")
  receiptStatus := fun _ => some 1
  transactResult := fun _ => some (pystr "0xhash")
  excText := pystr "exc"

def addrA : PyStr := pystr "0xaaaaaaaaaaaaaaaaaaaaaaaaaaaaaaaaaaaaaaaa"

def ownerA : PyStr := pystr "0xcccccccccccccccccccccccccccccccccccccccc"

def signerB : PyStr := pystr "0xbbbbbbbbbbbbbbbbbbbbbbbbbbbbbbbbbbbbbbbb"

def env2 : Env := { baseEnv with mainnetAddr := fun _ => some (pystr "banana") }

def env2w : Env :=
  { baseEnv with resolverOk := fun _ => true, textRecord := fun _ _ => some addrA }

def env3 : Env :=
  { baseEnv with resolverOk := fun _ => true, w3Owner := fun _ => some ownerA }

def env4 : Env :=
  { baseEnv with rpcConnected := fun n =>
      (n == pystr "mainnet") || (n == pystr "polygon") || (n == pystr "base") }

def env8 : Env := { baseEnv with available := fun _ => some false }

def env9 : Env :=
  { baseEnv with available := fun _ => some true, rentPrice := fun _ _ => some 100 }

/-! ## Claim theorems -/

/-- C1 (counterexample): with no signing account configured (no private
key supplied to __init__, so w3.eth.default_account is unset),
register_name does not return (false, "No account configured") — it
raises AttributeError at the guard attribute access, because
self.account is never assigned; set_text_record raises the same
AttributeError rather than returning anything. -/
theorem C1_counterexample :
    register_name baseEnv ⟨none⟩ (pystr "fresh") 1
      = (PyResult.raised attrErrAccount, []) ∧
    set_text_record baseEnv ⟨none⟩ (pystr "test.eth") (pystr "url") (pystr "v")
      = (PyResult.raised attrErrAccount, []) :=
  ⟨rfl, rfl⟩

/-- C1 (amended): because __init__ never assigns self.account, every
mutating operation of the facade — register_name, transfer_name,
set_address, set_text_record, set_content_hash, create_subdomain —
raises AttributeError at its account guard, in every state (whether or
not a signing key was supplied), and issues no transaction; none ever
returns (false, "No account configured"). -/
theorem C1_amended_guards (env : Env) (self : ENSManager) (name key value
    contentHash toAddress address domain sub : PyStr)
    (ownerAddress : Option PyStr) (durationYears : Nat) :
    register_name env self name durationYears
      = (PyResult.raised attrErrAccount, []) ∧
    transfer_name env self name toAddress
      = (PyResult.raised attrErrAccount, []) ∧
    set_address env self name address
      = (PyResult.raised attrErrAccount, []) ∧
    create_subdomain env self domain sub ownerAddress
      = (PyResult.raised attrErrAccount, []) ∧
    set_text_record env self name key value
      = (PyResult.raised attrErrAccount, []) ∧
    set_content_hash env self name contentHash
      = (PyResult.raised attrErrAccount, []) :=
  ⟨rfl, rfl, rfl, rfl, rfl, rfl⟩

/-- C4 (counterexample): with exactly 3 available (connected) networks,
get_all_network_addresses still returns one entry per CONFIGURED network
— 5 keys, including the unavailable "optimism" — so its key set is not
the available set. -/
theorem C4_counterexample :
    get_available_networks env4 = [pystr "mainnet", pystr "polygon", pystr "base"] ∧
    (get_available_networks env4).length = 3 ∧
    (get_all_network_addresses env4 (pystr "x.eth")).map Prod.fst = networkConfigKeys ∧
    networkConfigKeys.length = 5 ∧
    pystr "optimism" ∈ (get_all_network_addresses env4 (pystr "x.eth")).map Prod.fst ∧
    pystr "optimism" ∉ get_available_networks env4 := by
  decide

/-- C4 (amended): for every oracle and every name, the key list of
get_all_network_addresses is exactly the static NETWORK_CONFIGS key set
(5 networks, in table order), independent of which networks are
currently available; each key maps to an optional address. -/
theorem C4_amended_keys (env : Env) (name : PyStr) :
    (get_all_network_addresses env name).map Prod.fst = networkConfigKeys := by
  simp only [get_all_network_addresses, List.map_map]
  exact List.map_id'' (fun x => rfl) _

/-- C5 (counterexample): the input "abc-" ends with a hyphen, yet
validate_and_normalize_name reports ok=true with no issue: the ".eth"
suffix is appended before the trailing-hyphen check runs, which masks
the violation. -/
theorem C5_counterexample :
    validate_and_normalize_name (pystr "abc-") = (true, pystr "abc-.eth", []) := by
  decide

/-- C5 (amended): inputs containing ".." or "--" and inputs starting
with a hyphen are rejected with the corresponding issue; but an input
merely ending with a hyphen is not covered (see the counterexample),
because the appended ".eth" suffix hides the trailing hyphen from the
edge check. -/
theorem C5_amended_rules (s : PyStr) :
    (containsSub dots s = true →
      (validate_and_normalize_name s).1 = false ∧
        Issue.consecutiveDots ∈ (validate_and_normalize_name s).2.2) ∧
    (containsSub hyphens s = true →
      (validate_and_normalize_name s).1 = false ∧
        Issue.consecutiveHyphens ∈ (validate_and_normalize_name s).2.2) ∧
    (startsWithNat 45 s = true →
      (validate_and_normalize_name s).1 = false ∧
        Issue.edgeHyphen ∈ (validate_and_normalize_name s).2.2) := by
  refine ⟨?_, ?_, ?_⟩
  · intro h
    have hn : containsSub dots (vannNormalized s) = true :=
      containsSub_vannNormalized dots s (by decide) h
    have hmem : Issue.consecutiveDots ∈ vannIssues s := by
      simp [vannIssues, hn]
    exact ⟨by simp [validate_and_normalize_name, isEmpty_false_of_mem hmem], hmem⟩
  · intro h
    have hn : containsSub hyphens (vannNormalized s) = true :=
      containsSub_vannNormalized hyphens s (by decide) h
    have hmem : Issue.consecutiveHyphens ∈ vannIssues s := by
      simp [vannIssues, hn]
    exact ⟨by simp [validate_and_normalize_name, isEmpty_false_of_mem hmem], hmem⟩
  · intro h
    have hn : startsWithNat 45 (vannNormalized s) = true :=
      startsWithNat45_vannNormalized s h
    have hmem : Issue.edgeHyphen ∈ vannIssues s := by
      simp [vannIssues, hn]
    exact ⟨by simp [validate_and_normalize_name, isEmpty_false_of_mem hmem], hmem⟩

/-- C5 witness: the amended rules applied at concrete inputs with "..",
with "--" and with a leading hyphen. -/
theorem C5_amended_witness :
    ((validate_and_normalize_name (pystr "a..b")).1 = false ∧
      Issue.consecutiveDots ∈ (validate_and_normalize_name (pystr "a..b")).2.2) ∧
    ((validate_and_normalize_name (pystr "a--b")).1 = false ∧
      Issue.consecutiveHyphens ∈ (validate_and_normalize_name (pystr "a--b")).2.2) ∧
    ((validate_and_normalize_name (pystr "-ab")).1 = false ∧
      Issue.edgeHyphen ∈ (validate_and_normalize_name (pystr "-ab")).2.2) :=
  ⟨(C5_amended_rules (pystr "a..b")).1 (by decide),
   (C5_amended_rules (pystr "a--b")).2.1 (by decide),
   (C5_amended_rules (pystr "-ab")).2.2 (by decide)⟩

/-- C6 (counterexample): "ab.eth" strips to "ab" of length 2 < 3, yet
validate_and_normalize_name reports ok=true: the length check runs on
the whole raw input (6 characters) before the suffix is handled, not on
the suffix-stripped name. -/
theorem C6_counterexample :
    (validate_and_normalize_name (pystr "ab.eth")).1 = true ∧
    (specStripEthSuffix (pystr "ab.eth")).length < 3 := by
  decide

/-- C6 (amended): the minimum-length rule applies to the raw
(lower-cased) input before any suffix handling: an input shorter than 3
characters yields ok=false with the too-short issue, and ok=true implies
the raw input has length at least 3 — but nothing is guaranteed about
the length after stripping ".eth" (see the counterexample). -/
theorem C6_amended_length (s : PyStr) :
    (s.length < 3 →
      (validate_and_normalize_name s).1 = false ∧
        Issue.tooShort ∈ (validate_and_normalize_name s).2.2) ∧
    ((validate_and_normalize_name s).1 = true → 3 ≤ s.length) := by
  constructor
  · intro h
    have hl : (toLower s).length < 3 := by simpa [toLower_length] using h
    have hmem : Issue.tooShort ∈ vannIssues s := by simp [vannIssues, hl]
    exact ⟨by simp [validate_and_normalize_name, isEmpty_false_of_mem hmem], hmem⟩
  · intro h
    by_contra hlt
    push_neg at hlt
    have hl : (toLower s).length < 3 := by simpa [toLower_length] using hlt
    have hmem : Issue.tooShort ∈ vannIssues s := by simp [vannIssues, hl]
    have hne := isEmpty_false_of_mem hmem
    simp [validate_and_normalize_name, hne] at h

/-- C6 witness: the amended length rule applied at the short input "ab"
and the long-enough input "abc". -/
theorem C6_amended_witness :
    ((validate_and_normalize_name (pystr "ab")).1 = false ∧
      Issue.tooShort ∈ (validate_and_normalize_name (pystr "ab")).2.2) ∧
    3 ≤ (pystr "abc").length :=
  ⟨(C6_amended_length (pystr "ab")).1 (by decide),
   (C6_amended_length (pystr "abc")).2 (by decide)⟩

/-- C8 (code bug): the claimed behaviour is plainly what the code was
written to do — the guard at lines 1040-1041 returns
(false, "Name is not available") before any transaction step — but the
never-assigned self.account makes register_name raise AttributeError at
line 1032 first, in every state, so the claimed return is unreachable.
First conjunct: register_name evaluated at the failing input (key
supplied, availability reporting false) raises with no effects.  Second
conjunct: the dead code after the guard, evaluated at the same input,
returns exactly the pair the claim describes, with no build, sign or
submit effect. -/
theorem C8_register_unavailable :
    register_name env8 ⟨some signerB⟩ (pystr "taken.eth") 1
      = (PyResult.raised attrErrAccount, []) ∧
    register_name_afterGuard env8 signerB (pystr "taken.eth") 1
      = ((false, pystr "Name is not available"), []) :=
  ⟨rfl, by decide⟩

/-- C9 (counterexample): register_name never performs the preprocessed
availability query or registration the claim describes: it raises
AttributeError at its account guard before reaching the preprocessing of
lines 1036-1037, even on the cited input "a.eth.eth" with a key
supplied, and issues no effect. -/
theorem C9_counterexample :
    register_name env9 ⟨some signerB⟩ (pystr "a.eth.eth") 1
      = (PyResult.raised attrErrAccount, []) :=
  rfl

/-- C9 (amended): check_name_available queries availability for the
label obtained by lower-casing and removing EVERY ".eth" occurrence; on
interior occurrences this label differs from the suffix-stripped input
("a.eth.eth" is queried as "a", not "a.eth"; "x.ethy.eth" as "xy", not
"x.ethy").  register_name contains the same preprocessing but it is dead
code: register_name raises AttributeError in every state, so no
availability query or registration happens through it — only the dead
code after its guard would register the fully-replaced label "a". -/
theorem C9_preprocessing :
    (∀ env name, check_name_available env name
        = (env.available (removeEthAll (toLower name))).getD false) ∧
    removeEthAll (toLower (pystr "a.eth.eth")) = pystr "a" ∧
    specStripEthSuffix (pystr "a.eth.eth") = pystr "a.eth" ∧
    removeEthAll (toLower (pystr "x.ethy.eth")) = pystr "xy" ∧
    specStripEthSuffix (pystr "x.ethy.eth") = pystr "x.ethy" ∧
    pystr "a" ≠ pystr "a.eth" ∧
    pystr "xy" ≠ pystr "x.ethy" ∧
    (∀ env self name durationYears, register_name env self name durationYears
        = (PyResult.raised attrErrAccount, [])) ∧
    Effect.buildTx (TxKind.registerTx (pystr "a") 31536000)
      ∈ (register_name_afterGuard env9 signerB (pystr "a.eth.eth") 1).2 :=
  ⟨fun _ _ => rfl, by decide, by decide, by decide, by decide, by decide,
   by decide, fun _ _ _ _ => rfl, by decide⟩

/-- C10: the normalized string always carries the ".eth" suffix —
appended whenever missing, even for inputs with a different dotted
suffix such as "test.xyz" (normalized to "test.xyz.eth"), although
validate_name accepts "xyz" and "test" as top-level suffixes. -/
theorem C10_suffix_invariant :
    (∀ s, ethSuffix.isSuffixOf (vannNormalized s) = true) ∧
    vannNormalized (pystr "test.xyz") = pystr "test.xyz.eth" ∧
    (validate_and_normalize_name (pystr "test.xyz")).2.1 = pystr "test.xyz.eth" ∧
    validate_name (pystr "test.xyz") = true ∧
    validate_name (pystr "abc.test") = true :=
  ⟨vannNormalized_endsWithEth, by decide, by decide, by decide, by decide⟩

/-- C2 (counterexample): on mainnet the default-resolution fallback of
resolve_name returns whatever string the external ENS lookup yields,
with no is_address validation: an oracle answering "banana" makes
resolve_name return "banana", which fails the address-format check. -/
theorem C2_counterexample :
    resolve_name env2 (pystr "x.eth") (pystr "mainnet") = some (pystr "banana") ∧
    env2.isAddress (pystr "banana") = false := by
  decide

/-- C2 (amended): on every non-mainnet network the only source of a
resolved string is the network-specific text record, which is returned
only after passing is_address (and is then checksummed); so, provided
the external to_checksum_address preserves address validity (true of the
real library), every string resolve_name returns on a non-mainnet
network passes is_address.  On mainnet the fallback path returns the
external lookup unvalidated (see the counterexample). -/
theorem C2_amended_nonmainnet (env : Env) (name network s : PyStr)
    (hcs : ∀ x, env.isAddress (env.toChecksum x) = env.isAddress x)
    (hnet : network ≠ pystr "mainnet")
    (hres : resolve_name env name network = some s) :
    env.isAddress s = true := by
  have key : ∀ a, get_network_specific_address env name network = some a →
      ∃ t, a = env.toChecksum t ∧ env.isAddress t = true := by
    intro a ha
    simp only [get_network_specific_address, if_neg hnet] at ha
    by_cases hro : env.resolverOk name = true
    · rcases htr : env.textRecord name (networkKey network) with _ | t
      · simp [hro, htr] at ha
      · cases hcond : (!t.isEmpty && env.isAddress t) with
        | false => simp [hro, htr, hcond] at ha
        | true =>
          simp [hro, htr, hcond] at ha
          exact ⟨t, ha.symm, ((Bool.and_eq_true _ _).mp hcond).2⟩
    · simp [hro] at ha
  simp only [resolve_name] at hres
  by_cases ht : truthy (get_network_specific_address env name network) = true
  · rw [if_pos ht] at hres
    obtain ⟨t, hta, htv⟩ := key s hres
    rw [hta, hcs]
    exact htv
  · rw [if_neg ht, if_neg hnet] at hres
    simp at hres

/-- C2 witness: a concrete oracle with a valid network-specific text
record for polygon; the resolved string passes is_address. -/
theorem C2_amended_witness : env2w.isAddress addrA = true :=
  C2_amended_nonmainnet env2w (pystr "x.eth") (pystr "polygon") addrA
    (fun _ => rfl) (by decide) (by decide)

/-- C3 (counterexample): set_network_address — the writer for the
network-specific address record — performs no ownership check: with the
on-chain owner different from the configured signer it still builds,
signs and submits the transaction and reports success. -/
theorem C3_counterexample :
    get_owner env3 (pystr "x.eth") = some ownerA ∧
    toLower ownerA ≠ toLower signerB ∧
    (set_network_address env3 (pystr "x.eth") (pystr "polygon") addrA).1
      = (true, pystr "Successfully set polygon address for x.eth") ∧
    Effect.sendRawTx (TxKind.setTextTx (pystr "x.eth") (networkKey (pystr "polygon")) addrA)
      ∈ (set_network_address env3 (pystr "x.eth") (pystr "polygon") addrA).2 := by
  decide

/-- C3 (amended): no write operation enforces the claimed ownership
precondition.  set_network_address never consults the owner — its result
and effects are invariant under any change of the owner oracle (last
conjunct), and the counterexample shows it signing and submitting for a
name the signer does not own.  transfer_name, set_address and
create_subdomain contain an ownership comparison in their source, but it
is unreachable: each raises AttributeError at the never-assigned
self.account guard, in every state, issuing no transaction and returning
no ownership pair (first three conjuncts). -/
theorem C3_amended_ownership_guards (env : Env) (self : ENSManager)
    (own : PyStr → Option PyStr) (name toAddress address network
    domain sub : PyStr) (ownerAddress : Option PyStr) :
    transfer_name env self name toAddress
      = (PyResult.raised attrErrAccount, []) ∧
    set_address env self name address
      = (PyResult.raised attrErrAccount, []) ∧
    create_subdomain env self domain sub ownerAddress
      = (PyResult.raised attrErrAccount, []) ∧
    set_network_address { env with w3Owner := own } name network address
      = set_network_address env name network address :=
  ⟨rfl, rfl, rfl, rfl⟩

/-- C7: whenever validate_and_normalize_name reports ok=true,
re-validating the returned normalized string reports ok=true again with
the very same normalized string and no issue — normalization is
idempotent on accepted inputs. -/
theorem C7_normalize_idempotent (s : PyStr)
    (h : (validate_and_normalize_name s).1 = true) :
    validate_and_normalize_name ((validate_and_normalize_name s).2.1)
      = (true, (validate_and_normalize_name s).2.1, []) := by
  have hissues : vannIssues s = [] := by
    cases hv : vannIssues s with
    | nil => rfl
    | cons a t => simp [validate_and_normalize_name, hv] at h
  have h2 : allAllowed (vannNormalized s) = true := by
    cases hc : allAllowed (vannNormalized s) with
    | true => rfl
    | false => exfalso; simp [vannIssues, hc] at hissues
  have h3 : containsSub hyphens (vannNormalized s) = false := by
    cases hc : containsSub hyphens (vannNormalized s) with
    | false => rfl
    | true => exfalso; simp [vannIssues, hc] at hissues
  have h4 : (startsWithNat 45 (vannNormalized s) || endsWithNat 45 (vannNormalized s))
      = false := by
    cases hc : (startsWithNat 45 (vannNormalized s) || endsWithNat 45 (vannNormalized s)) with
    | false => rfl
    | true => exfalso; simp [vannIssues, hc] at hissues
  have h5 : containsSub dots (vannNormalized s) = false := by
    cases hc : containsSub dots (vannNormalized s) with
    | false => rfl
    | true => exfalso; simp [vannIssues, hc] at hissues
  have h6 : (splitDot (vannNormalized s)).filter (fun l => 63 < l.length) = [] := by
    cases hf : (splitDot (vannNormalized s)).filter (fun l => 63 < l.length) with
    | nil => rfl
    | cons a t => exfalso; simp [vannIssues, hf] at hissues
  have htl : toLower (vannNormalized s) = vannNormalized s :=
    toLower_fixed_of_allAllowed _ h2
  have hsuf : ethSuffix.isSuffixOf (vannNormalized s) = true :=
    vannNormalized_endsWithEth s
  have hvn : vannNormalized (vannNormalized s) = vannNormalized s := by
    have he : vannNormalized (vannNormalized s)
        = if ethSuffix.isSuffixOf (toLower (vannNormalized s)) then
            toLower (vannNormalized s)
          else toLower (vannNormalized s) ++ ethSuffix := rfl
    rw [he, htl, if_pos hsuf]
  have hlen : ¬ (vannNormalized s).length < 3 := by
    have h4l := isSuffixOf_length_le ethSuffix (vannNormalized s) hsuf
    have he : ethSuffix.length = 4 := by decide
    omega
  have hIss : vannIssues (vannNormalized s) = [] := by
    simp only [vannIssues, hvn, htl, h2, h3, h4, h5, h6]
    simp [hlen]
  show validate_and_normalize_name (vannNormalized s) = (true, vannNormalized s, [])
  simp [validate_and_normalize_name, hIss, hvn]

/-- C7 witness: idempotence exercised at the accepted input "Test.ETH",
whose normalized form is "test.eth". -/
theorem C7_witness :
    validate_and_normalize_name ((validate_and_normalize_name (pystr "Test.ETH")).2.1)
      = (true, (validate_and_normalize_name (pystr "Test.ETH")).2.1, []) :=
  C7_normalize_idempotent (pystr "Test.ETH") (by decide)
